import Mathlib

/-!
# Verification of the KiCad library validator core

Shallow embedding of the schema-resolution and rule-validation engine of
`kicad_lib_validator` (files `models/structure.py`, `models/symbol.py`,
`models/footprint.py`, `models/validation.py`,
`validators/symbol_validator.py`, `validators/footprint_validator.py`).

Python dictionaries are modelled as association lists in insertion order
(keys unique, lookup returns the first binding); Python exceptions are
modelled with `Except PyExn`; pydantic model instances are always truthy,
strings/lists/dicts are falsy exactly when empty, which the embedding
reproduces at each `if x:` site of the source.
-/

namespace KicadLibValidator

/-- Python exceptions that the embedded validator code can raise. -/
inductive PyExn where
  /-- `IndexError`, e.g. from `categories[-1]` on an empty list. -/
  | indexError
  /-- `AttributeError`, e.g. from reading a field a pydantic model does not define. -/
  | attributeError (msg : String)
  /-- `ValueError`, e.g. raised by `PropertyDefinition.validate_pattern`. -/
  | valueError (msg : String)
deriving DecidableEq, Repr

/-! ## A model of the parts of Python `re` that the validators touch

The source calls `re.compile` (through the pydantic field validator
`validate_pattern`) and `re.match`.  We embed the fragment of Python's
regex language that the repository's schemas and tests use: an optional
leading `^` (redundant under `re.match`, which anchors at the start), an
optional trailing `$`, literal characters, `.`, character classes with
ranges and negation, and the postfix operators `*`, `+`, `?`.  Patterns
outside this fragment fail to parse; every concrete pattern and property
value appearing in a theorem below lies inside the fragment, where the
model agrees with `re`. -/

/-- One item of a character class `[...]`. -/
inductive ClsItem where
  | single (c : Char)
  | range (lo hi : Char)
deriving DecidableEq, Repr

/-- An atomic regex element. -/
inductive RElem where
  | lit (c : Char)
  | anyChar
  | cls (neg : Bool) (items : List ClsItem)
deriving DecidableEq, Repr

/-- A regex element together with its postfix repetition operator. -/
inductive RPiece where
  | once (e : RElem)
  | star (e : RElem)
  | plus (e : RElem)
  | opt (e : RElem)
deriving DecidableEq, Repr

/-- A compiled regex: a sequence of pieces, optionally anchored at the end
by a trailing `$` (the start anchor is implicit under `re.match`). -/
structure Regex where
  anchoredEnd : Bool
  pieces : List RPiece
deriving DecidableEq, Repr

/-- Characters with special meaning that the embedded fragment does not
support as literals. -/
def specialChars : List Char :=
  ['^', '$', '*', '+', '?', '.', '[', ']', '(', ')', '\\', '|',
   Char.ofNat 123, Char.ofNat 125]

/-- Parse the body of a character class up to the closing `]`, returning
the items and the remaining input. -/
def parseClassBody : List Char → Option (List ClsItem × List Char)
  | [] => none
  | ']' :: rest => some ([], rest)
  | a :: '-' :: b :: rest =>
    if a = '\\' ∨ b = '\\' ∨ b = ']' then none
    else
      match parseClassBody rest with
      | some (items, r) => some (ClsItem.range a b :: items, r)
      | none => none
  | a :: rest =>
    if a = '\\' then none
    else
      match parseClassBody rest with
      | some (items, r) => some (ClsItem.single a :: items, r)
      | none => none

/-- Fuel-driven parser for a sequence of regex pieces; the fuel is an upper
bound on the number of remaining input characters plus one, so it never
runs out on the inputs `parseRegex` passes in. -/
def parsePiecesF : Nat → List Char → Option (List RPiece × Bool)
  | 0, _ => none
  | _ + 1, [] => some ([], false)
  | _ + 1, ['$'] => some ([], true)
  | fuel + 1, c :: rest =>
    let elemRest : Option (RElem × List Char) :=
      if c = '[' then
        match rest with
        | '^' :: rest2 =>
          match parseClassBody rest2 with
          | some (items, r) => some (RElem.cls true items, r)
          | none => none
        | _ =>
          match parseClassBody rest with
          | some (items, r) => some (RElem.cls false items, r)
          | none => none
      else if c = '.' then some (RElem.anyChar, rest)
      else if c ∈ specialChars then none
      else some (RElem.lit c, rest)
    match elemRest with
    | none => none
    | some (e, rest') =>
      match rest' with
      | '*' :: r2 =>
        match parsePiecesF fuel r2 with
        | some (ps, d) => some (RPiece.star e :: ps, d)
        | none => none
      | '+' :: r2 =>
        match parsePiecesF fuel r2 with
        | some (ps, d) => some (RPiece.plus e :: ps, d)
        | none => none
      | '?' :: r2 =>
        match parsePiecesF fuel r2 with
        | some (ps, d) => some (RPiece.opt e :: ps, d)
        | none => none
      | _ =>
        match parsePiecesF fuel rest' with
        | some (ps, d) => some (RPiece.once e :: ps, d)
        | none => none

/-- Model of `re.compile` on the supported fragment: `none` means the
pattern is rejected (or unsupported by the model). -/
def parseRegex (p : String) : Option Regex :=
  let cs := p.data
  let cs' := match cs with
    | '^' :: r => r
    | _ => cs
  match parsePiecesF (cs'.length + 1) cs' with
  | some (ps, d) => some { anchoredEnd := d, pieces := ps }
  | none => none

/-- Does a single regex element match one character? -/
def matchElem : RElem → Char → Bool
  | RElem.lit c, x => x = c
  | RElem.anyChar, x => x ≠ '\n'
  | RElem.cls neg items, x =>
    let inCls := items.any fun it =>
      match it with
      | ClsItem.single c => x = c
      | ClsItem.range lo hi => decide (lo ≤ x) && decide (x ≤ hi)
    if neg then !inCls else inCls

/-- Fuel-driven backtracking matcher for a piece sequence against a
character list, anchored at the start as `re.match` is; when `anchoredEnd`
is false a prefix match suffices.  The fuel passed by `reMatch` strictly
dominates the number of backtracking steps. -/
def matchSeqF (anchoredEnd : Bool) : Nat → List RPiece → List Char → Bool
  | 0, _, _ => false
  | _ + 1, [], s => !anchoredEnd || s.isEmpty
  | _ + 1, RPiece.once _ :: _, [] => false
  | fuel + 1, RPiece.once e :: ps, x :: s =>
    matchElem e x && matchSeqF anchoredEnd fuel ps s
  | fuel + 1, RPiece.opt e :: ps, s =>
    matchSeqF anchoredEnd fuel ps s ||
      (match s with
       | x :: s' => matchElem e x && matchSeqF anchoredEnd fuel ps s'
       | [] => false)
  | _ + 1, RPiece.plus _ :: _, [] => false
  | fuel + 1, RPiece.plus e :: ps, x :: s =>
    matchElem e x && matchSeqF anchoredEnd fuel (RPiece.star e :: ps) s
  | fuel + 1, RPiece.star e :: ps, s =>
    matchSeqF anchoredEnd fuel ps s ||
      (match s with
       | x :: s' => matchElem e x && matchSeqF anchoredEnd fuel (RPiece.star e :: ps) s'
       | [] => false)

/-- Model of `bool(re.match(p, s))` on the supported fragment. -/
def reMatch (p s : String) : Bool :=
  match parseRegex p with
  | some r =>
    matchSeqF r.anchoredEnd ((s.data.length + 2) * (r.pieces.length + 2)) r.pieces s.data
  | none => false

/-! ## Models of the Python `str` methods the validators use -/

/-- `str.split(sep)` with a one-character separator, on the character
list: Python keeps empty fragments. -/
def splitOnChar (sep : Char) : List Char → List (List Char)
  | [] => [[]]
  | c :: rest =>
    let r := splitOnChar sep rest
    if c = sep then [] :: r
    else
      match r with
      | h :: t => (c :: h) :: t
      | [] => [[c]]

/-- `s.split("_")` of Python. -/
def pySplitUnderscore (s : String) : List String :=
  (splitOnChar '_' s.data).map fun l => String.mk l

/-- `s.lower()` of Python (the repository's category names are ASCII). -/
def pyLower (s : String) : String :=
  String.mk (s.data.map Char.toLower)

/-- `s.startswith(p)` of Python. -/
def pyStartsWith (s p : String) : Bool :=
  p.data.isPrefixOf s.data

/-- Is `sub` a contiguous substring of `s`?  Used only to state that a
message does not mention a pattern. -/
def listHasSub (sub : List Char) : List Char → Bool
  | [] => sub.isEmpty
  | s@(_ :: rest) => sub.isPrefixOf s || listHasSub sub rest

/-- String containment, `sub in s` of Python. -/
def containsStr (s sub : String) : Bool :=
  listHasSub sub.data s.data

/-! ## Data model (`models/structure.py`, `models/symbol.py`, `models/footprint.py`)

Only the fields the two embedded validators read are carried; pydantic's
construction-time field validators are out of the behaviour embedded here
(they run at schema load, which the validators consume ready-made). -/

/-- `PropertyDefinition` of `models/structure.py` (the `description` field
is never read by the validators and is omitted). -/
structure PropertyDefinition where
  required : Bool := true
  pattern : Option String := none
  ki_field_name : Option String := none
deriving DecidableEq, Repr

/-- `PinRequirements` of `models/structure.py`: the fields are
`min_count`, `max_count`, `required_types` (and `naming`, never read by
the symbol/footprint validators).  Note there is no `count` and no
`required_names` field. -/
structure PinRequirements where
  min_count : Option Int := some 0
  max_count : Option Int := none
  required_types : Option (List String) := none
deriving DecidableEq, Repr

/-- `ComponentNaming` of `models/structure.py`. -/
structure ComponentNaming where
  pattern : Option String := none
  description_pattern : Option String := none
deriving DecidableEq, Repr

/-- `ComponentEntry` of `models/structure.py`. -/
structure ComponentEntry where
  naming : Option ComponentNaming := none
  required_properties : Option (List (String × PropertyDefinition)) := none
  pins : Option PinRequirements := none
  required_layers : Option (List String) := none
  required_pads : Option PinRequirements := none
  reference_prefix : Option String := none
  reference_pattern : Option String := none
deriving DecidableEq, Repr

/-- `ComponentGroup` of `models/structure.py`: an optional dict of entries
and an optional dict of subgroups. -/
inductive ComponentGroup where
  | mk (entries : Option (List (String × ComponentEntry)))
       (subgroups : Option (List (String × ComponentGroup)))

/-- The `entries` field of a `ComponentGroup`. -/
def ComponentGroup.entries : ComponentGroup → Option (List (String × ComponentEntry))
  | ComponentGroup.mk e _ => e

/-- The `subgroups` field of a `ComponentGroup`. -/
def ComponentGroup.subgroups : ComponentGroup → Option (List (String × ComponentGroup))
  | ComponentGroup.mk _ s => s

/-- `LibraryStructure` of `models/structure.py`, restricted to the fields
the symbol and footprint validators read (`version`, `description`,
`library`, `models_3d` and `documentation` are never consulted by them). -/
structure LibraryStructure where
  symbols : Option (List (String × ComponentGroup)) := some []
  footprints : Option (List (String × ComponentGroup)) := some []

/-- `Pin` of `models/symbol.py` (position/length/orientation/effects are
never read by `validate_symbol`). -/
structure Pin where
  name : String
  number : String
  type : String
deriving DecidableEq, Repr

/-- `Symbol` of `models/symbol.py`, restricted to the fields
`validate_symbol` reads. -/
structure Symbol where
  name : String
  library_name : String
  properties : List (String × String) := []
  pins : List Pin := []
  categories : Option (List String) := none
deriving DecidableEq, Repr

/-- `Pad` of `models/footprint.py` (shape/at/size/layers are never read by
`validate_footprint`). -/
structure Pad where
  number : String
  type : String
deriving DecidableEq, Repr

/-- `Footprint` of `models/footprint.py`, restricted to the fields
`validate_footprint` reads. -/
structure Footprint where
  name : String
  library_name : String
  properties : List (String × String) := []
  pads : List Pad := []
  layers : List String := []
  categories : Option (List String) := none
deriving DecidableEq, Repr

/-- `ValidationResult` of `models/validation.py`: three ordered message
lists. -/
structure ValidationResult where
  errors : List String := []
  warnings : List String := []
  successes : List String := []
deriving DecidableEq, Repr

/-- `ValidationResult.has_errors`. -/
def ValidationResult.has_errors (r : ValidationResult) : Bool :=
  r.errors.length > 0

/-! ## Category resolution (`_find_matching_entry`)

Both resolvers traverse with
`for category in categories[:-1]: if category not in current_group: return None;
current_group = current_group[category]`.  The traversal starts on the raw
Python dict `structure.symbols` / `structure.footprints`; after the first
descent `current_group` is a pydantic `ComponentGroup`, on which the `in`
test enumerates `(field_name, value)` pairs, so a string category never
tests as present and the loop returns `None` at the second step.  The
cursor type records which of the two shapes the current node has. -/

/-- The current node of the resolver traversal: either the raw top-level
dict or a `ComponentGroup` reached by the first descent. -/
inductive GroupCursor where
  | dict (d : List (String × ComponentGroup))
  | group (g : ComponentGroup)

/-- The loop `for category in categories[:-1]` of `_find_matching_entry`.
In the `group` case Python's membership test on a pydantic model compares
the string against `(field, value)` tuples and always fails, so the loop
returns `None`. -/
def descendCategories : GroupCursor → List String → Option GroupCursor
  | cur, [] => some cur
  | GroupCursor.dict d, c :: rest =>
    match d.lookup c with
    | some g => descendCategories (GroupCursor.group g) rest
    | none => none
  | GroupCursor.group _, _ :: _ => none

/-- `[cat.lower() for cat in library_name.split("_")[1:]]` of
`symbol_validator._find_matching_entry`. -/
def symbolCategories (library_name : String) : List String :=
  ((pySplitUnderscore library_name).drop 1).map pyLower

/-- `symbol_validator._find_matching_entry`: resolves a symbol's category
path (derived from its library name) to a `ComponentEntry`.  The
unguarded `categories[-1]` raises `IndexError` when the derived category
list is empty. -/
def findMatchingEntrySymbol (sym : Symbol) (st : LibraryStructure) :
    Except PyExn (Option ComponentEntry) :=
  match st.symbols with
  | none => Except.ok none
  | some d =>
    if d.isEmpty then Except.ok none
    else if sym.library_name = "" then Except.ok none
    else
      let categories := symbolCategories sym.library_name
      match descendCategories (GroupCursor.dict d) categories.dropLast with
      | none => Except.ok none
      | some cur =>
        match categories.getLast? with
        | none => Except.error PyExn.indexError
        | some last =>
          match cur with
          | GroupCursor.dict _ => Except.ok none
          | GroupCursor.group g =>
            match ComponentGroup.entries g with
            | none => Except.ok none
            | some es => Except.ok (es.lookup last)

/-- `footprint_validator._find_matching_entry`: like the symbol resolver
but the path comes from `footprint.categories or []` and the last element
is guarded (`categories[-1] if categories else None`), so an empty path
returns `None` instead of raising. -/
def findMatchingEntryFootprint (fp : Footprint) (st : LibraryStructure) :
    Option ComponentEntry :=
  match st.footprints with
  | none => none
  | some d =>
    if d.isEmpty then none
    else
      let categories := fp.categories.getD []
      match descendCategories (GroupCursor.dict d) categories.dropLast with
      | none => none
      | some cur =>
        match categories.getLast? with
        | none => none
        | some last =>
          if last = "" then none
          else
            match cur with
            | GroupCursor.dict _ => none
            | GroupCursor.group g =>
              match ComponentGroup.entries g with
              | none => none
              | some es => es.lookup last

/-! ## Rule validation (`validate_symbol`, `validate_footprint`) -/

/-- The `required_fields` list of `validate_symbol`. -/
def symbolRequiredFields : List String :=
  ["Reference", "Value", "Footprint", "Datasheet", "Description", "ki_keywords"]

/-- The `required_fields` list of `validate_footprint`. -/
def footprintRequiredFields : List String :=
  ["Reference", "Value", "Datasheet", "Description"]

/-- The loop `for field in required_fields: if field not in properties:
add_error(...)` shared by both validators (`add_error` prefixes the
category). -/
def missingFieldErrors (cat : String) (fields : List String)
    (props : List (String × String)) : List String :=
  (fields.filter fun f => (props.lookup f).isNone).map
    fun f => cat ++ ": Missing required field: " ++ f

/-- The property-value resolution of the required-properties loop:
`if prop_def.ki_field_name and prop_def.ki_field_name in properties` uses
the declared alias first and falls back to the literal property key. -/
def resolvePropValue (props : List (String × String)) (name : String)
    (pd : PropertyDefinition) : Option String :=
  match pd.ki_field_name with
  | some k =>
    if k ≠ "" ∧ (props.lookup k).isSome then props.lookup k
    else props.lookup name
  | none => props.lookup name

/-- `prop_def.validate_pattern(prop_value)` as invoked by the validators:
this is the pydantic construction-time field validator applied to the
property VALUE, so it `re.compile`s the value (raising `ValueError` when
the value is not a valid pattern) and returns the value unchanged. -/
def validatePatternCall (v : String) : Except PyExn String :=
  match parseRegex v with
  | none => Except.error (PyExn.valueError ("Invalid pattern: " ++ v))
  | some _ => Except.ok v

/-- One iteration of the required-properties loop: returns the error
messages and success messages it appends (each already prefixed with the
category by `add_error` / `add_success`). -/
def propCheck (cat : String) (props : List (String × String)) (name : String)
    (pd : PropertyDefinition) : Except PyExn (List String × List String) :=
  match resolvePropValue props name pd with
  | none =>
    Except.ok
      (if pd.required then [cat ++ ": Missing required property: " ++ name] else [], [])
  | some v =>
    match pd.pattern with
    | some p =>
      if p ≠ "" then
        match validatePatternCall v with
        | Except.error e => Except.error e
        | Except.ok v' =>
          if v' = "" then
            Except.ok
              ([cat ++ ": Property '" ++ name ++ "' value '" ++ v ++
                "' does not match pattern: " ++ p], [])
          else
            Except.ok
              ([], [cat ++ ": Property '" ++ name ++ "' value '" ++ v ++
                "' matches pattern: " ++ p])
      else Except.ok ([], [])
    | none => Except.ok ([], [])

/-- The whole required-properties loop over the entry's
`required_properties` dict in insertion order. -/
def propChecks (cat : String) (props : List (String × String)) :
    List (String × PropertyDefinition) → Except PyExn (List String × List String)
  | [] => Except.ok ([], [])
  | (name, pd) :: rest =>
    match propCheck cat props name pd with
    | Except.error e => Except.error e
    | Except.ok (e1, s1) =>
      match propChecks cat props rest with
      | Except.error e => Except.error e
      | Except.ok (e2, s2) => Except.ok (e1 ++ e2, s1 ++ s2)

/-- `known_props` of the unknown-property check: the built-in required
fields plus the declared property keys and their truthy aliases (Python's
`if entry.required_properties:` skips the update on `None` or `{}`). -/
def knownProps (fields : List String) (entry : ComponentEntry) : List String :=
  match entry.required_properties with
  | some rp =>
    if rp = [] then fields
    else
      fields ++ rp.map Prod.fst ++
        (rp.filterMap fun pr =>
          match pr.2.ki_field_name with
          | some k => if k = "" then none else some k
          | none => none)
  | none => fields

/-- The final loop of both validators: one warning per property key that
is neither known nor `ki_`-prefixed. -/
def unknownPropWarnings (cat : String) (fields : List String)
    (entry : ComponentEntry) (props : List (String × String)) : List String :=
  (props.filter fun p =>
    !(decide (p.1 ∈ knownProps fields entry)) && !(pyStartsWith p.1 "ki_")).map
    fun p => cat ++ ": Unknown property: " ++ p.1

/-- The `reference_prefix` check of `validate_symbol` (errors, successes). -/
def referencePrefixMsgs (entry : ComponentEntry) (props : List (String × String)) :
    List String × List String :=
  match ComponentEntry.reference_prefix entry, props.lookup "Reference" with
  | some p, some ref =>
    if p ≠ "" then
      if !(pyStartsWith ref p) then
        (["Symbol: Reference '" ++ ref ++ "' does not start with required prefix: " ++ p], [])
      else
        ([], ["Symbol: Reference '" ++ ref ++ "' has correct prefix: " ++ p])
    else ([], [])
  | _, _ => ([], [])

/-- The pin cardinality and required-pin-type checks of `validate_symbol`
(errors, successes).  `min_count` defaults to `0` when unset; the bounds
share one `if/elif/else`, so at most one of the two bound errors fires. -/
def pinMsgs (entry : ComponentEntry) (pins : List Pin) : List String × List String :=
  match entry.pins with
  | none => ([], [])
  | some pr =>
    let pin_count : Int := pins.length
    let minc : Int := pr.min_count.getD 0
    let countMsgs : List String × List String :=
      if pin_count < minc then
        (["Symbol: Expected at least " ++ toString minc ++ " pins, found " ++
          toString pin_count], [])
      else
        match pr.max_count with
        | some m =>
          if pin_count > m then
            (["Symbol: Expected at most " ++ toString m ++ " pins, found " ++
              toString pin_count], [])
          else ([], ["Symbol: Pin count matches expected: " ++ toString pin_count])
        | none => ([], ["Symbol: Pin count matches expected: " ++ toString pin_count])
    let typeMsgs : List String × List String :=
      match pr.required_types with
      | some ts =>
        if ts = [] then ([], [])
        else
          ((ts.filter fun t => !(pins.any fun pin => pin.type == t)).map
             fun t => "Symbol: Missing required pin type: " ++ t,
           (ts.filter fun t => pins.any fun pin => pin.type == t).map
             fun t => "Symbol: Found required pin type: " ++ t)
      | none => ([], [])
    (countMsgs.1 ++ typeMsgs.1, countMsgs.2 ++ typeMsgs.2)

/-- `validate_symbol` of `validators/symbol_validator.py`.  A raised
exception (e.g. the resolver's `IndexError`) discards all messages
accumulated so far, as in Python. -/
def validate_symbol (sym : Symbol) (st : LibraryStructure) :
    Except PyExn ValidationResult :=
  let fieldErrs := missingFieldErrors "Symbol" symbolRequiredFields sym.properties
  match findMatchingEntrySymbol sym st with
  | Except.error e => Except.error e
  | Except.ok none =>
    Except.ok
      { errors := fieldErrs
        warnings := ["Symbol: No matching component entry found for symbol " ++ sym.name]
        successes := [] }
  | Except.ok (some entry) =>
    let propsStep : Except PyExn (List String × List String) :=
      match entry.required_properties with
      | some rp => if rp = [] then Except.ok ([], []) else propChecks "Symbol" sym.properties rp
      | none => Except.ok ([], [])
    match propsStep with
    | Except.error e => Except.error e
    | Except.ok (pErrs, pSuccs) =>
      let refMsgs := referencePrefixMsgs entry sym.properties
      let pinM := pinMsgs entry sym.pins
      Except.ok
        { errors := fieldErrs ++ pErrs ++ refMsgs.1 ++ pinM.1
          warnings := unknownPropWarnings "Symbol" symbolRequiredFields entry sym.properties
          successes := pSuccs ++ refMsgs.2 ++ pinM.2 }

/-- The `reference_pattern` check of `validate_footprint`
(errors, successes); the pattern was compiled successfully at schema load,
and `re.match` anchors at the start only. -/
def referencePatternMsgs (entry : ComponentEntry) (props : List (String × String)) :
    List String × List String :=
  match ComponentEntry.reference_pattern entry, props.lookup "Reference" with
  | some p, some ref =>
    if p ≠ "" then
      if !(reMatch p ref) then
        (["Footprint: Reference '" ++ ref ++ "' does not match required pattern: " ++ p], [])
      else
        ([], ["Footprint: Reference '" ++ ref ++ "' matches required pattern: " ++ p])
    else ([], [])
  | _, _ => ([], [])

/-- The required-layers loop of `validate_footprint`: one error per
missing layer and one success per found layer, in declaration order. -/
def layerMsgs (entry : ComponentEntry) (layers : List String) :
    List String × List String :=
  match entry.required_layers with
  | some ls =>
    if ls = [] then ([], [])
    else
      ((ls.filter fun l => !(layers.contains l)).map
         fun l => "Footprint: Missing required layer: " ++ l,
       (ls.filter fun l => layers.contains l).map
         fun l => "Footprint: Found required layer: " ++ l)
  | none => ([], [])

/-- The required-pads block of `validate_footprint`: its first condition
reads `entry.required_pads.count`, but `PinRequirements` defines no
`count` field, so whenever `required_pads` is set the attribute access
raises `AttributeError` before any message is emitted. -/
def padStep (entry : ComponentEntry) : Except PyExn Unit :=
  match entry.required_pads with
  | some _ =>
    Except.error
      (PyExn.attributeError "PinRequirements object has no attribute count")
  | none => Except.ok ()

/-- `validate_footprint` of `validators/footprint_validator.py`. -/
def validate_footprint (fp : Footprint) (st : LibraryStructure) :
    Except PyExn ValidationResult :=
  let fieldErrs := missingFieldErrors "Footprint" footprintRequiredFields fp.properties
  match findMatchingEntryFootprint fp st with
  | none =>
    Except.ok
      { errors := fieldErrs
        warnings := ["Footprint: No matching component entry found for footprint " ++ fp.name]
        successes := [] }
  | some entry =>
    let propsStep : Except PyExn (List String × List String) :=
      match entry.required_properties with
      | some rp =>
        if rp = [] then Except.ok ([], []) else propChecks "Footprint" fp.properties rp
      | none => Except.ok ([], [])
    match propsStep with
    | Except.error e => Except.error e
    | Except.ok (pErrs, pSuccs) =>
      let refMsgs := referencePatternMsgs entry fp.properties
      let layM := layerMsgs entry fp.layers
      match padStep entry with
      | Except.error e => Except.error e
      | Except.ok _ =>
        Except.ok
          { errors := fieldErrs ++ pErrs ++ refMsgs.1 ++ layM.1
            warnings := unknownPropWarnings "Footprint" footprintRequiredFields entry fp.properties
            successes := pSuccs ++ refMsgs.2 ++ layM.2 }

end KicadLibValidator

deriving instance DecidableEq for Except

namespace KicadLibValidator

/-! ## Concrete schemas and artifacts used by the theorems below -/

/-- Rule entry with a naming pattern, as in `test_symbol_validator.py`. -/
def entryC1 : ComponentEntry :=
  { naming := some { pattern := some "^R[0-9]+$" } }

/-- A structure whose symbol tree holds `entryC1` under
`passives → standard`. -/
def stC1 : LibraryStructure :=
  { symbols := some [("passives", ComponentGroup.mk (some [("standard", entryC1)]) none)] }

/-- A symbol named `X10` that resolves to `entryC1` (its library name
yields the category path `["passives", "standard"]`). -/
def symC1 : Symbol :=
  { name := "X10"
    library_name := "Test_passives_standard"
    properties := [("Reference", "R10"), ("Value", "10k")] }

/-- The exact error list `validate_symbol` produces for `symC1`. -/
def c1Errors : List String :=
  ["Symbol: Missing required field: Footprint",
   "Symbol: Missing required field: Datasheet",
   "Symbol: Missing required field: Description",
   "Symbol: Missing required field: ki_keywords"]

/-- Property rule declaring both a literal key (`Keywords`) and an alias
(`ki_keywords`). -/
def pdC2 : PropertyDefinition :=
  { pattern := some "x", ki_field_name := some "ki_keywords" }

/-- Entry with the single property rule `pdC2`. -/
def entryC2 : ComponentEntry :=
  { required_properties := some [("Keywords", pdC2)] }

/-- Structure holding `entryC2` under `g → e`. -/
def stC2 : LibraryStructure :=
  { footprints := some [("g", ComponentGroup.mk (some [("e", entryC2)]) none)] }

/-- Footprint carrying both the literal key (`Keywords → "B"`) and the
alias (`ki_keywords → "A"`). -/
def fpC2 : Footprint :=
  { name := "F1"
    library_name := "Test"
    properties := [("Reference", "REF"), ("Value", "V1"), ("Datasheet", "D"),
                   ("Description", "X"), ("Keywords", "B"), ("ki_keywords", "A")]
    categories := some ["g", "e"] }

/-- A required property rule with no pattern (all defaults). -/
def pdC3 : PropertyDefinition := {}

/-- Entry requiring `Value` with no pattern. -/
def entryC3 : ComponentEntry :=
  { required_properties := some [("Value", pdC3)] }

/-- Structure holding `entryC3` under `g → e`. -/
def stC3 : LibraryStructure :=
  { footprints := some [("g", ComponentGroup.mk (some [("e", entryC3)]) none)] }

/-- Footprint on which `Value` is present. -/
def fpC3 : Footprint :=
  { name := "F1"
    library_name := "Test"
    properties := [("Reference", "REF"), ("Value", "10k"), ("Datasheet", "D"),
                   ("Description", "X")]
    categories := some ["g", "e"] }

/-- Entry with a pad cardinality requirement `min_count 2, max_count 4`
(scenario 4 of the spec). -/
def entryC4 : ComponentEntry :=
  { required_pads := some { min_count := some 2, max_count := some 4 } }

/-- Structure holding `entryC4` under `g → e`. -/
def stC4 : LibraryStructure :=
  { footprints := some [("g", ComponentGroup.mk (some [("e", entryC4)]) none)] }

/-- Footprint with five pads, one above `max_count`. -/
def fpC4 : Footprint :=
  { name := "F1"
    library_name := "Test"
    properties := [("Reference", "REF"), ("Value", "V1"), ("Datasheet", "D"),
                   ("Description", "X")]
    pads := [{ number := "1", type := "smd" }, { number := "2", type := "smd" },
             { number := "3", type := "smd" }, { number := "4", type := "smd" },
             { number := "5", type := "smd" }]
    categories := some ["g", "e"] }

/-- Entry requiring three layers. -/
def entryC5 : ComponentEntry :=
  { required_layers := some ["F.Cu", "B.Cu", "F.SilkS"] }

/-- Structure holding `entryC5` under `g → e`. -/
def stC5 : LibraryStructure :=
  { footprints := some [("g", ComponentGroup.mk (some [("e", entryC5)]) none)] }

/-- Footprint missing two of the three required layers. -/
def fpC5 : Footprint :=
  { name := "F1"
    library_name := "Test"
    properties := [("Reference", "REF"), ("Value", "V1"), ("Datasheet", "D"),
                   ("Description", "X")]
    layers := ["F.Cu"]
    categories := some ["g", "e"] }

/-- The single rule entry of the `resistors` subgroup. -/
def entryC6 : ComponentEntry :=
  { naming := some { pattern := some "^SMD[0-9]+$" } }

/-- Group with exactly one rule entry (`standard`) and no subgroups, as in
`test_footprint_validator.make_structure`. -/
def resistorsGroup : ComponentGroup :=
  ComponentGroup.mk (some [("standard", entryC6)]) none

/-- Top-level group whose only child is the `resistors` subgroup. -/
def smdGroup : ComponentGroup :=
  ComponentGroup.mk none (some [("resistors", resistorsGroup)])

/-- Structure with the footprint tree `smd → resistors → standard`. -/
def stC6 : LibraryStructure :=
  { footprints := some [("smd", smdGroup)] }

/-- Footprint whose category path `["smd", "resistors"]` is exhausted at
the `resistors` group (which holds exactly one entry). -/
def fpC6 : Footprint :=
  { name := "SMD1234"
    library_name := "Test"
    properties := [("Reference", "REF"), ("Value", "V1"), ("Datasheet", "D"),
                   ("Description", "X")]
    categories := some ["smd", "resistors"] }

/-- Structure with a non-empty symbol tree (so the symbol resolver does
not take its early `not structure.symbols` exit). -/
def stC7 : LibraryStructure :=
  { symbols := some [("passives", ComponentGroup.mk (some [("standard", ComponentEntry.mk none none none none none none none)]) none)] }

/-- Symbol whose library name has no underscore, so its derived category
path is empty. -/
def symC7 : Symbol :=
  { name := "R10"
    library_name := "Test"
    properties := [("Reference", "R10")] }

/-- Entry whose pad requirement is satisfied by `fpC8` (one pad,
`min_count 1`). -/
def entryC8 : ComponentEntry :=
  { required_pads := some { min_count := some 1 } }

/-- Structure holding `entryC8` under `g → e`. -/
def stC8 : LibraryStructure :=
  { footprints := some [("g", ComponentGroup.mk (some [("e", entryC8)]) none)] }

/-- Footprint with exactly one pad, satisfying `entryC8`'s bounds. -/
def fpC8 : Footprint :=
  { name := "F1"
    library_name := "Test"
    properties := [("Reference", "REF"), ("Value", "V1"), ("Datasheet", "D"),
                   ("Description", "X")]
    pads := [{ number := "1", type := "smd" }]
    categories := some ["g", "e"] }

/-- Tiny structure for the determinism witness. -/
def stC9 : LibraryStructure := {}

/-- Tiny footprint for the determinism witness. -/
def fpC9 : Footprint :=
  { name := "F1", library_name := "Test" }

/-! ## Helper lemmas -/

/-- `String.append` cancels on the left. -/
theorem str_append_left_cancel {a b c : String} (h : a ++ b = a ++ c) : b = c := by
  cases a with
  | mk la =>
    cases b with
    | mk lb =>
      cases c with
      | mk lc =>
        have hd : la ++ lb = la ++ lc := congrArg String.data h
        exact congrArg String.mk (List.append_cancel_left hd)

/-- The built-in required fields are always contained in `known_props`. -/
theorem mem_knownProps_of_mem_fields {x : String} {fields : List String}
    (entry : ComponentEntry) (hx : x ∈ fields) : x ∈ knownProps fields entry := by
  unfold knownProps
  cases entry.required_properties with
  | none => exact hx
  | some rp =>
    by_cases h : rp = []
    · simp only [h, if_true]
      exact hx
    · simp only [h, if_false]
      exact List.mem_append_left _ (List.mem_append_left _ hx)

/-- No key that is `ki_`-prefixed or listed among the built-in required
fields ever yields an unknown-property warning. -/
theorem unknown_warning_never_for_known_key (cat : String) (fields : List String)
    (entry : ComponentEntry) (props : List (String × String)) (key : String)
    (hk : pyStartsWith key "ki_" = true ∨ key ∈ fields) :
    (cat ++ ": Unknown property: " ++ key) ∉ unknownPropWarnings cat fields entry props := by
  intro hmem
  unfold unknownPropWarnings at hmem
  rw [List.mem_map] at hmem
  obtain ⟨p, hpf, heq⟩ := hmem
  rw [List.mem_filter] at hpf
  obtain ⟨_, hpred⟩ := hpf
  have hp1 : p.1 = key := str_append_left_cancel heq
  rw [hp1] at hpred
  rw [Bool.and_eq_true, Bool.not_eq_true', Bool.not_eq_true'] at hpred
  cases hk with
  | inl h => rw [h] at hpred; exact Bool.noConfusion hpred.2
  | inr h =>
    have : decide (key ∈ knownProps fields entry) = true := by
      exact decide_eq_true (mem_knownProps_of_mem_fields entry h)
    rw [this] at hpred
    exact Bool.noConfusion hpred.1

/-! ## Claim theorems -/

/-- C1: on a resolved entry whose `naming.pattern` is `^R[0-9]+$` and a
symbol named `X10`, `validate_symbol` emits no naming message at all — no
error mentions the pattern text or a pattern mismatch, and there is no
naming success either; the only errors are the four missing built-in
fields.  The claimed naming check (one error containing both the name and
the pattern) does not exist in `validate_symbol`/`validate_footprint`,
although the repository's own tests expect it. -/
theorem c1_symbol_naming_pattern_never_checked :
    validate_symbol symC1 stC1 =
      Except.ok { errors := c1Errors, warnings := [], successes := [] } ∧
    ComponentEntry.naming entryC1 =
      some { pattern := some "^R[0-9]+$", description_pattern := none } ∧
    symC1.name = "X10" ∧
    c1Errors.all (fun m => !(containsStr m "^R[0-9]+$")) = true ∧
    c1Errors.all (fun m => !(containsStr m "does not match pattern")) = true := by
  decide

/-- C2 (counterexample): with the literal key `Keywords → "B"` present and
the alias `ki_keywords → "A"` also present, the required-properties check
resolves the ALIAS value `A` (its success message names `'A'`), so the
claim that the literal key is looked up first is false. -/
theorem c2_alias_checked_before_literal_counterexample :
    validate_footprint fpC2 stC2 =
      Except.ok
        { errors := []
          warnings := []
          successes := ["Footprint: Property 'Keywords' value 'A' matches pattern: x"] } ∧
    fpC2.properties.lookup "Keywords" = some "B" ∧
    fpC2.properties.lookup "ki_keywords" = some "A" := by
  decide

/-- C2 (amended): the validator resolves a property's value by first
looking up the declared alias (`ki_field_name`); only when the alias is
undeclared, empty, or absent from the artifact's properties does it look
up the literal property key.  The four conjuncts cover, in order: a
declared non-empty alias that is present (its value wins), a declared
non-empty alias that is absent (literal lookup), an undeclared alias
(literal lookup), and a declared but empty alias (falsy in Python, so
literal lookup). -/
theorem c2_amended_alias_first_resolution :
    ∀ (props : List (String × String)) (name : String) (pd : PropertyDefinition),
      ((∀ k v, pd.ki_field_name = some k → k ≠ "" → props.lookup k = some v →
          resolvePropValue props name pd = some v) ∧
       (∀ k, pd.ki_field_name = some k → k ≠ "" → props.lookup k = none →
          resolvePropValue props name pd = props.lookup name) ∧
       (pd.ki_field_name = none → resolvePropValue props name pd = props.lookup name) ∧
       (pd.ki_field_name = some "" → resolvePropValue props name pd = props.lookup name)) := by
  intro props name pd
  refine ⟨?_, ?_, ?_, ?_⟩
  · intro k v hki hk hv
    simp [resolvePropValue, hki, hv, hk]
  · intro k hki hk hnone
    simp [resolvePropValue, hki, hnone]
  · intro hki
    simp [resolvePropValue, hki]
  · intro hki
    simp [resolvePropValue, hki]

/-- Witness for C2's amended theorem at a concrete alias lookup. -/
theorem c2_amended_alias_first_resolution_witness :
    resolvePropValue [("ki_keywords", "A"), ("Keywords", "B")] "Keywords" pdC2 = some "A" :=
  (c2_amended_alias_first_resolution [("ki_keywords", "A"), ("Keywords", "B")]
    "Keywords" pdC2).1 "ki_keywords" "A" rfl (by decide) rfl

/-- C3 (counterexample): a required property rule with no pattern whose
property IS present yields zero messages — no success is emitted, so the
claim that presence yields exactly one success message is false. -/
theorem c3_present_no_pattern_silent_counterexample :
    validate_footprint fpC3 stC3 =
      Except.ok { errors := [], warnings := [], successes := [] } ∧
    (fpC3.properties.lookup "Value").isSome = true ∧
    pdC3.pattern = none ∧ pdC3.required = true := by
  decide

/-- C3 (amended): for a required property rule with no pattern, a present
property produces no message at all, an absent one produces exactly one
`Missing required property` error, and no pattern check is attempted (the
check always returns normally with no pattern message). -/
theorem c3_amended_no_pattern_property_check :
    ∀ (cat : String) (props : List (String × String)) (name : String)
      (pd : PropertyDefinition), pd.pattern = none → pd.required = true →
      (((resolvePropValue props name pd).isSome = true →
          propCheck cat props name pd = Except.ok ([], [])) ∧
       (resolvePropValue props name pd = none →
          propCheck cat props name pd =
            Except.ok ([cat ++ ": Missing required property: " ++ name], []))) := by
  intro cat props name pd hpat hreq
  constructor
  · intro hsome
    unfold propCheck
    cases hres : resolvePropValue props name pd with
    | none => rw [hres] at hsome; exact Bool.noConfusion hsome
    | some v => rw [hpat]
  · intro hnone
    unfold propCheck
    rw [hnone, hreq]
    simp only [if_true]

/-- Witness for C3's amended theorem: present property, no message. -/
theorem c3_amended_no_pattern_property_check_witness :
    propCheck "Footprint" [("Value", "10k")] "Value" pdC3 = Except.ok ([], []) :=
  (c3_amended_no_pattern_property_check "Footprint" [("Value", "10k")] "Value" pdC3
    rfl rfl).1 (by decide)

/-- C4: a footprint with five pads against a pad requirement
`min_count 2, max_count 4` does not get the claimed `Expected at most 4
pads, found 5` error: `validate_footprint` raises `AttributeError`
because the pad block reads `required_pads.count`, a field
`PinRequirements` does not define. -/
theorem c4_pad_requirements_raise_attribute_error :
    validate_footprint fpC4 stC4 =
      Except.error (PyExn.attributeError "PinRequirements object has no attribute count") ∧
    fpC4.pads.length = 5 ∧
    ComponentEntry.required_pads entryC4 =
      some { min_count := some 2, max_count := some 4, required_types := none } := by
  decide

/-- C5: with two of three required layers missing, the layer check emits
one error PER missing layer (two errors, each naming one layer) and one
success per found layer — not one aggregated error and zero successes as
claimed (and as the repository's own tests expect). -/
theorem c5_per_layer_messages_not_aggregated :
    validate_footprint fpC5 stC5 =
      Except.ok
        { errors := ["Footprint: Missing required layer: B.Cu",
                     "Footprint: Missing required layer: F.SilkS"]
          warnings := []
          successes := ["Footprint: Found required layer: F.Cu"] } ∧
    ComponentEntry.required_layers entryC5 = some ["F.Cu", "B.Cu", "F.SilkS"] ∧
    fpC5.layers = ["F.Cu"] := by
  decide

/-- C6: a category path exhausted at a group holding exactly one rule
entry does NOT resolve to that entry: the footprint resolver returns no
entry (the group's `entries` dict is `None` at the step where the last
path element is looked up), and validation reports only the generic
`No matching component entry` warning; there is no singleton-entry
fallback and no `AmbiguousOrMissingEntry` failure in this resolver. -/
theorem c6_singleton_group_path_returns_no_entry :
    findMatchingEntryFootprint fpC6 stC6 = none ∧
    ComponentGroup.entries resistorsGroup = some [("standard", entryC6)] ∧
    fpC6.categories = some ["smd", "resistors"] ∧
    validate_footprint fpC6 stC6 =
      Except.ok
        { errors := []
          warnings := ["Footprint: No matching component entry found for footprint SMD1234"]
          successes := [] } := by
  decide

/-- C7: a symbol whose derived category path is empty makes
`validate_symbol` raise `IndexError` (the resolver reads
`categories[-1]` unguarded), rather than failing with an explicit
`EmptyCategoryPath` resolution failure. -/
theorem c7_empty_category_path_symbol_index_error :
    symbolCategories symC7.library_name = [] ∧
    validate_symbol symC7 stC7 = Except.error PyExn.indexError := by
  decide

/-- C8: evaluating the constraint checks can raise: as soon as an entry
declares `required_pads`, the pad block raises `AttributeError` — even on
an artifact that satisfies the declared bounds (here one pad against
`min_count 1`) — so constraint evaluation is interrupted instead of being
recorded in the outcome. -/
theorem c8_constraint_check_raises_on_required_pads :
    validate_footprint fpC8 stC8 =
      Except.error (PyExn.attributeError "PinRequirements object has no attribute count") ∧
    fpC8.pads.length = 1 ∧
    ComponentEntry.required_pads entryC8 =
      some { min_count := some 1, max_count := none, required_types := none } := by
  decide

/-- C9: both validators are pure deterministic functions of their two
inputs — identical inputs yield identical outcome message sequences
(identical `ValidationResult`s, or the identical exception). -/
theorem c9_validate_pure_deterministic :
    (∀ (fp fp' : Footprint) (st st' : LibraryStructure),
        fp = fp' → st = st' → validate_footprint fp st = validate_footprint fp' st') ∧
    (∀ (sym sym' : Symbol) (st st' : LibraryStructure),
        sym = sym' → st = st' → validate_symbol sym st = validate_symbol sym' st') :=
  ⟨fun _ _ _ _ h1 h2 => by rw [h1, h2], fun _ _ _ _ h1 h2 => by rw [h1, h2]⟩

/-- Witness for C9 at a concrete footprint and structure. -/
theorem c9_validate_pure_deterministic_witness :
    validate_footprint fpC9 stC9 = validate_footprint fpC9 stC9 :=
  c9_validate_pure_deterministic.1 fpC9 fpC9 stC9 stC9 rfl rfl

/-- C10: a property key starting with `ki_` never yields an
unknown-property warning, and the built-in field lists (for symbols:
Reference, Value, Footprint, Datasheet, Description, ki_keywords; for
footprints: Reference, Value, Datasheet, Description) are always treated
as known, whatever the entry declares. -/
theorem c10_ki_prefix_and_builtin_fields_never_warned :
    (∀ (entry : ComponentEntry) (props : List (String × String)) (key : String),
        pyStartsWith key "ki_" = true ∨ key ∈ symbolRequiredFields →
        ("Symbol" ++ ": Unknown property: " ++ key) ∉
          unknownPropWarnings "Symbol" symbolRequiredFields entry props) ∧
    (∀ (entry : ComponentEntry) (props : List (String × String)) (key : String),
        pyStartsWith key "ki_" = true ∨ key ∈ footprintRequiredFields →
        ("Footprint" ++ ": Unknown property: " ++ key) ∉
          unknownPropWarnings "Footprint" footprintRequiredFields entry props) ∧
    symbolRequiredFields =
      ["Reference", "Value", "Footprint", "Datasheet", "Description", "ki_keywords"] ∧
    footprintRequiredFields = ["Reference", "Value", "Datasheet", "Description"] :=
  ⟨fun entry props key hk =>
      unknown_warning_never_for_known_key "Symbol" symbolRequiredFields entry props key hk,
   fun entry props key hk =>
      unknown_warning_never_for_known_key "Footprint" footprintRequiredFields entry props key hk,
   rfl, rfl⟩

/-- Witness for C10: a `ki_`-prefixed key undeclared by the entry is not
warned about. -/
theorem c10_ki_prefix_and_builtin_fields_never_warned_witness :
    ("Symbol" ++ ": Unknown property: " ++ "ki_custom") ∉
      unknownPropWarnings "Symbol" symbolRequiredFields
        (ComponentEntry.mk none none none none none none none) [("ki_custom", "v")] :=
  c10_ki_prefix_and_builtin_fields_never_warned.1
    (ComponentEntry.mk none none none none none none none) [("ki_custom", "v")]
    "ki_custom" (Or.inl (by decide))

end KicadLibValidator
